import Mathlib

/-!
Verification of the MK signal-aggregation and decision EA.

The repository's source under src/ contains the main expert-advisor file
(mk$.mq5: OnInit, OnTick, OnTimer, OnDeinit and the display helpers).
The Aggregation Engine and the DecisionEngine internals are only declared
there (their implementations live in include files that are not part of
src/), so those parts are modelled from the spec, as marked on each
definition.  Real numbers (MQL doubles) are embedded as rationals and
datetimes as integers (seconds).
-/

namespace MK

/-- Direction of a component signal or of a composite. -/
inductive Direction where
  | Bullish
  | Bearish
  | Neutral
deriving DecidableEq, Repr

/-- Modelled from the spec: §3 ComponentSignal - the common currency every
analysis module emits (the struct itself is not under src/). -/
structure ComponentSignal where
  name : String
  direction : Direction
  score : ℚ
  confidence : ℚ
  weight : ℚ
  active : Bool
  timestamp : Int
deriving DecidableEq, Repr

/-- Agreement bookkeeping of a composite signal. -/
structure AgreementCount where
  agree : Nat
  oppose : Nat
deriving DecidableEq, Repr

/-- Modelled from the spec: §3 CompositeSignal - result of aggregating the
active ComponentSignals of one symbol at one evaluation. -/
structure CompositeSignal where
  symbol : String
  evaluatedAt : Int
  weightedScore : ℚ
  overallConfidence : ℚ
  dominantDirection : Direction
  agreement : AgreementCount
  isValid : Bool
deriving DecidableEq, Repr

/-- Global aggregation configuration (spec §6: minConfidence, neutralBand). -/
structure AggConfig where
  neutralBand : ℚ
  minConfidence : ℚ
deriving DecidableEq, Repr

/-- Default configuration values given in spec §4.2. -/
def defaultAggConfig : AggConfig := { neutralBand := 5, minConfidence := 60 }

/-- Sign of a direction used for signed contributions (spec §4.2 step 3). -/
def dirSign : Direction → ℚ
  | .Bullish => 1
  | .Bearish => -1
  | .Neutral => 0

/-- The direction opposing a given one; Neutral opposes nothing. -/
def oppositeDir : Direction → Direction
  | .Bullish => .Bearish
  | .Bearish => .Bullish
  | .Neutral => .Neutral

/-- Sum of the raw weights of a component list. -/
def weightSum (l : List ComponentSignal) : ℚ :=
  (l.map (·.weight)).sum

/-- Modelled from the spec: §4.2 step 2 - weight normalization with the
equal-weighting fallback when the weight sum is zero. -/
def normalizedWeight (l : List ComponentSignal) (c : ComponentSignal) : ℚ :=
  if weightSum l = 0 then 1 / (l.length : ℚ) else c.weight / weightSum l

/-- Clamp a rational to a closed interval. -/
def clampQ (lo hi x : ℚ) : ℚ := max lo (min x hi)

/-- Raw (unclamped) weighted score of a component list (spec §4.2 steps 3-4). -/
def rawWeightedScore (l : List ComponentSignal) : ℚ :=
  (l.map fun c => normalizedWeight l c * c.score * dirSign c.direction).sum

/-- Weighted-mean confidence of a component list (spec §4.2 step 5). -/
def weightedConfidence (l : List ComponentSignal) : ℚ :=
  (l.map fun c => normalizedWeight l c * c.confidence).sum

/-- Dominant direction from a weighted score (spec §4.2 step 6; ties at the
neutral band classify as Neutral). -/
def dominantOf (cfg : AggConfig) (ws : ℚ) : Direction :=
  if cfg.neutralBand < ws then .Bullish
  else if ws < -cfg.neutralBand then .Bearish
  else .Neutral

/-- Modelled from the spec: §4.2 Aggregate(list of ComponentSignal) ->
CompositeSignal.  The Aggregation Engine implementation is not under src/;
this definition follows the spec's eight algorithm steps. -/
def Aggregate (cfg : AggConfig) (symbol : String) (now : Int)
    (l : List ComponentSignal) : CompositeSignal :=
  if l.isEmpty then
    { symbol := symbol, evaluatedAt := now, weightedScore := 0,
      overallConfidence := 0, dominantDirection := .Neutral,
      agreement := { agree := 0, oppose := 0 }, isValid := false }
  else
    let ws := clampQ (-100) 100 (rawWeightedScore l)
    let conf := weightedConfidence l
    let dom := dominantOf cfg ws
    let agree :=
      (l.filter fun c => c.direction = dom ∧ c.direction ≠ .Neutral).length
    let oppose :=
      (l.filter fun c =>
        c.direction = oppositeDir dom ∧ c.direction ≠ .Neutral).length
    { symbol := symbol, evaluatedAt := now, weightedScore := ws,
      overallConfidence := conf, dominantDirection := dom,
      agreement := { agree := agree, oppose := oppose },
      isValid := cfg.minConfidence ≤ conf ∧ oppose < agree ∧ dom ≠ .Neutral }

/-! Helper lemmas about list sums used for the confidence bounds. -/

theorem list_sum_map_mul_right {α : Type} (l : List α) (f : α → ℚ) (r : ℚ) :
    (l.map fun a => f a * r).sum = (l.map f).sum * r := by
  induction l with
  | nil => simp
  | cons a tl ih => simp [ih, add_mul]

theorem normalizedWeight_nonneg (l : List ComponentSignal)
    (hw : ∀ x ∈ l, 0 ≤ x.weight) (c : ComponentSignal) (hc : c ∈ l) :
    0 ≤ normalizedWeight l c := by
  unfold normalizedWeight
  split
  · exact div_nonneg zero_le_one (Nat.cast_nonneg _)
  · refine div_nonneg (hw c hc) ?_
    exact List.sum_nonneg (by
      intro x hx
      obtain ⟨y, hy, rfl⟩ := List.mem_map.mp hx
      exact hw y hy)

theorem sum_normalizedWeight (l : List ComponentSignal) (hne : l ≠ []) :
    (l.map (normalizedWeight l)).sum = 1 := by
  have hlen : (l.length : ℚ) ≠ 0 :=
    Nat.cast_ne_zero.mpr (List.length_pos.mpr hne).ne'
  by_cases h : weightSum l = 0
  · have hfun : normalizedWeight l = fun _ => ((l.length : ℚ))⁻¹ := by
      funext c
      simp [normalizedWeight, h, one_div]
    rw [hfun, List.map_const', List.sum_replicate, nsmul_eq_mul]
    exact mul_inv_cancel₀ hlen
  · have hfun : normalizedWeight l = fun c => c.weight * (weightSum l)⁻¹ := by
      funext c
      simp [normalizedWeight, h, div_eq_mul_inv]
    rw [hfun, list_sum_map_mul_right]
    have : (l.map (·.weight)).sum = weightSum l := rfl
    rw [this, mul_inv_cancel₀ h]

theorem weightedConfidence_nonneg (l : List ComponentSignal)
    (hconf : ∀ c ∈ l, 0 ≤ c.confidence) (hw : ∀ c ∈ l, 0 ≤ c.weight) :
    0 ≤ weightedConfidence l := by
  refine List.sum_nonneg ?_
  intro x hx
  obtain ⟨c, hc, rfl⟩ := List.mem_map.mp hx
  exact mul_nonneg (normalizedWeight_nonneg l hw c hc) (hconf c hc)

theorem weightedConfidence_le_100 (l : List ComponentSignal) (hne : l ≠ [])
    (hconf : ∀ c ∈ l, c.confidence ≤ 100) (hw : ∀ c ∈ l, 0 ≤ c.weight) :
    weightedConfidence l ≤ 100 := by
  have step : weightedConfidence l ≤ (l.map fun c => normalizedWeight l c * 100).sum := by
    refine List.sum_le_sum ?_
    intro c hc
    exact mul_le_mul_of_nonneg_left (hconf c hc) (normalizedWeight_nonneg l hw c hc)
  have collapse : (l.map fun c => normalizedWeight l c * 100).sum = 100 := by
    rw [list_sum_map_mul_right, sum_normalizedWeight l hne, one_mul]
  calc weightedConfidence l ≤ _ := step
    _ = 100 := collapse

/-! EA-side data carried between the package manager and the decision
engine, embedded from the mk$.mq5 section of
src/include/utils/instructions.c. -/

/-- Direction analysis block of a TradePackage; the EA reads its
dominantDirection string (instructions.c, OnTick). -/
structure DirectionAnalysis where
  dominantDirection : String
deriving DecidableEq, Repr

/-- The TradePackage fields the EA reads in OnTick and UpdateDisplay:
isValid, overallConfidence, directionAnalysis.dominantDirection, plus the
weighted score the package computes via CalculateWeightedScore. -/
structure TradePackage where
  isValid : Bool
  overallConfidence : ℚ
  weightedScore : ℚ
  directionAnalysis : DirectionAnalysis
deriving DecidableEq, Repr

/-- Order types the EA assigns to the interface (instructions.c, OnTick). -/
inductive OrderType where
  | buy
  | sell
  | buyLimit
deriving DecidableEq, Repr

/-- The minimal interface struct the EA fills and hands to
DecisionEngine.ProcessTradePackage (instructions.c, OnTick). -/
structure DecisionEngineInterface where
  symbol : String
  overallConfidence : ℚ
  analysisTime : Int
  isValid : Bool
  dominantDirection : String
  weightedScore : ℚ
  orderType : OrderType
  signalConfidence : ℚ
  signalReason : String
  entryPrice : ℚ
  stopLoss : ℚ
  takeProfit1 : ℚ
  positionSize : ℚ
  mtfBullishCount : Int
  mtfBearishCount : Int
  mtfWeight : ℚ
deriving DecidableEq, Repr

/-- Field-for-field embedding of the interface construction in OnTick
(instructions.c lines 1647-1679): confidence is copied into weightedScore,
signalConfidence and mtfWeight; the mtf counts are the constants 4 or 2
chosen from the direction string; an empty direction string becomes
NEUTRAL. -/
def buildDEInterface (symbol : String) (now : Int) (bid : ℚ)
    (pkg : TradePackage) : DecisionEngineInterface :=
  let dom :=
    if pkg.directionAnalysis.dominantDirection ≠ "" then
      pkg.directionAnalysis.dominantDirection
    else "NEUTRAL"
  { symbol := symbol
    overallConfidence := pkg.overallConfidence
    analysisTime := now
    isValid := pkg.isValid
    dominantDirection := dom
    weightedScore := pkg.overallConfidence
    orderType :=
      if dom = "BULLISH" then .buy
      else if dom = "BEARISH" then .sell
      else .buyLimit
    signalConfidence := pkg.overallConfidence
    signalReason := "6-Component Analysis"
    entryPrice := bid
    stopLoss := 0
    takeProfit1 := 0
    positionSize := 1 / 100
    mtfBullishCount := if dom = "BULLISH" then 4 else 2
    mtfBearishCount := if dom = "BEARISH" then 4 else 2
    mtfWeight := pkg.overallConfidence }

/-- The static locals of OnTick (instructions.c line 1630-1631). -/
structure TickState where
  lastPackageUpdate : Int
  lastDisplayUpdate : Int
deriving DecidableEq, Repr

/-- Inputs of one OnTick call: current time, current bid, the EA inputs
PackageUpdateInterval and UseDecisionEngine, whether the package manager is
allocated and initialized, and the package GetTradePackage(true) would
produce on this tick. -/
structure TickInput where
  now : Int
  bid : ℚ
  packageUpdateInterval : Int
  useDecisionEngine : Bool
  pkgMgrReady : Bool
  freshPackage : TradePackage
  symbol : String
deriving DecidableEq, Repr

/-- Observable outcome of one OnTick call: the updated static state, the
freshly generated package if any, and the interface forwarded to
DecisionEngine.ProcessTradePackage if any. -/
structure TickResult where
  state : TickState
  generated : Option TradePackage
  forwarded : Option DecisionEngineInterface
deriving DecidableEq, Repr

/-- Embedding of OnTick (instructions.c lines 1628-1695): the package
branch runs when the manager is ready and at least PackageUpdateInterval
seconds have passed since lastPackageUpdate; inside it, forwarding happens
only when UseDecisionEngine is on and the fresh package is valid.  The
display timestamp updates every 2 seconds independently. -/
def OnTick (st : TickState) (inp : TickInput) : TickResult :=
  let genStep :
      Int × Option TradePackage × Option DecisionEngineInterface :=
    if inp.pkgMgrReady ∧ inp.packageUpdateInterval ≤ inp.now - st.lastPackageUpdate then
      let fresh := inp.freshPackage
      let fwd :=
        if inp.useDecisionEngine ∧ fresh.isValid then
          some (buildDEInterface inp.symbol inp.now inp.bid fresh)
        else none
      (inp.now, some fresh, fwd)
    else (st.lastPackageUpdate, none, none)
  let lastDisplay :=
    if 2 ≤ inp.now - st.lastDisplayUpdate then inp.now else st.lastDisplayUpdate
  { state := { lastPackageUpdate := genStep.1, lastDisplayUpdate := lastDisplay }
    generated := genStep.2.1
    forwarded := genStep.2.2 }

/-! Embedding of OnInit (instructions.c lines 1530-1623). -/

/-- Result code of OnInit. -/
inductive InitResult where
  | succeeded
  | failed
deriving DecidableEq, Repr

/-- Success or failure of each step OnInit performs, in program order. -/
structure InitOutcomes where
  loggerOk : Bool
  indMgrOk : Bool
  pkgMgrCreated : Bool
  pkgMgrInitOk : Bool
  poiEnabled : Bool
  poiInitOk : Bool
  engineInitOk : Bool
  registerOk : Bool
deriving DecidableEq, Repr

/-- Resources held after OnInit returns: whether the Logger is initialized
(Logger::Shutdown not called), whether the two heap manager objects are
still allocated, and whether the DecisionEngine is initialized. -/
structure ResourceState where
  loggerInitialized : Bool
  indMgrAllocated : Bool
  pkgMgrAllocated : Bool
  engineInitialized : Bool
deriving DecidableEq, Repr

/-- Embedding of OnInit (instructions.c lines 1530-1623): each failure
branch deletes the manager objects allocated so far and returns
INIT_FAILED; the RegisterSymbol failure branch additionally calls
decisionEngine.Deinitialize().  No failure branch calls Logger::Shutdown,
so the Logger stays initialized once its own step succeeded.  A POI module
failure only logs a warning and does not abort. -/
def OnInit (o : InitOutcomes) : InitResult × ResourceState :=
  if !o.loggerOk then
    (.failed, ⟨false, false, false, false⟩)
  else if !o.indMgrOk then
    (.failed, ⟨true, false, false, false⟩)
  else if !o.pkgMgrCreated then
    (.failed, ⟨true, false, false, false⟩)
  else if !o.pkgMgrInitOk then
    (.failed, ⟨true, false, false, false⟩)
  else if !o.engineInitOk then
    (.failed, ⟨true, false, false, false⟩)
  else if !o.registerOk then
    (.failed, ⟨true, false, false, false⟩)
  else
    (.succeeded, ⟨true, true, true, true⟩)

/-! Decision state machine, modelled from the spec (§4.3); the
DecisionEngine implementation is not under src/. -/

/-- Decisions the engine can emit (spec §3 SymbolDecisionState). -/
inductive Decision where
  | NoDecision
  | Buy
  | Sell
  | Hold
  | Close
deriving DecidableEq, Repr

/-- States of the per-symbol machine (spec §4.3). -/
inductive DState where
  | Idle
  | Cooldown
  | HasOpenPosition
deriving DecidableEq, Repr

/-- Modelled from the spec: §3 SymbolDecisionState, one per traded symbol
(the struct is not under src/).  The EA configures cooldownMinutes and the
two confidence thresholds through DecisionParams at registration. -/
structure SymbolDecisionState where
  machineState : DState
  lastDecision : Decision
  lastDecisionTime : Int
  cooldownUntil : Int
  cooldownMinutes : Int
  buyThreshold : ℚ
  sellThreshold : ℚ
  openPositionCount : Int
  maxPositions : Int
  positionDirection : Direction
deriving DecidableEq, Repr

/-- Modelled from the spec: §4.3 failure semantics - a composite with
confidence outside [0,100] or a direction inconsistent with the sign of
the weighted score is malformed and evaluates to Hold. -/
def malformedComposite (comp : CompositeSignal) : Bool :=
  decide (comp.overallConfidence < 0) || decide (100 < comp.overallConfidence) ||
  (decide (comp.dominantDirection = .Bullish) && decide (comp.weightedScore ≤ 0)) ||
  (decide (comp.dominantDirection = .Bearish) && decide (0 ≤ comp.weightedScore))

/-- Confidence threshold an opposing signal must clear to close an open
position (spec §4.3 HasOpenPosition reversal rule). -/
def reversalThreshold (st : SymbolDecisionState) : ℚ :=
  if st.positionDirection = .Bullish then st.sellThreshold else st.buyThreshold

/-- Modelled from the spec: §4.3 Idle transition rules - invalid composite
holds; a valid Bullish composite above buyThreshold buys and enters
Cooldown with cooldownUntil = now + cooldownDuration; symmetric for Sell;
otherwise Hold. -/
def evalIdle (comp : CompositeSignal) (st : SymbolDecisionState) (now : Int) :
    Decision × SymbolDecisionState :=
  if comp.isValid = false then (.Hold, st)
  else if comp.dominantDirection = .Bullish ∧ st.buyThreshold ≤ comp.overallConfidence then
    (.Buy,
      { st with
        machineState := .Cooldown
        lastDecision := .Buy
        lastDecisionTime := now
        cooldownUntil := now + 60 * st.cooldownMinutes })
  else if comp.dominantDirection = .Bearish ∧ st.sellThreshold ≤ comp.overallConfidence then
    (.Sell,
      { st with
        machineState := .Cooldown
        lastDecision := .Sell
        lastDecisionTime := now
        cooldownUntil := now + 60 * st.cooldownMinutes })
  else (.Hold, st)

/-- Modelled from the spec: §4.3 Evaluate(composite, state, now) ->
Decision.  From Cooldown, any call before cooldownUntil holds without
touching state; on expiry the machine re-evaluates as Idle in the same
call.  From HasOpenPosition only Close or Hold are possible. -/
def Evaluate (comp : CompositeSignal) (st : SymbolDecisionState) (now : Int) :
    Decision × SymbolDecisionState :=
  if malformedComposite comp then (.Hold, st)
  else if st.machineState = .Idle then evalIdle comp st now
  else if st.machineState = .Cooldown then
    if now < st.cooldownUntil then (.Hold, st)
    else evalIdle comp { st with machineState := .Idle } now
  else
    if comp.isValid = true ∧ comp.dominantDirection = oppositeDir st.positionDirection ∧
       reversalThreshold st ≤ comp.overallConfidence then
      (.Close, { st with lastDecision := .Close, lastDecisionTime := now })
    else (.Hold, st)

/-- Decisions produced by a sequence of evaluations, threading the state. -/
def evalDecisions (st : SymbolDecisionState) :
    List (CompositeSignal × Int) → List Decision
  | [] => []
  | e :: rest =>
      let r := Evaluate e.1 st e.2
      r.1 :: evalDecisions r.2 rest

/-- Per-symbol registration parameters the EA passes to
DecisionEngine.RegisterSymbol (instructions.c lines 1583-1589). -/
structure DecisionParams where
  riskPercent : ℚ
  cooldownMinutes : Int
  buyConfidenceThreshold : ℚ
  sellConfidenceThreshold : ℚ
deriving DecidableEq, Repr

/-- Modelled from the spec: §7(c) - RegisterSymbol rejects a configuration
with zero or negative thresholds or a misconfigured (negative) cooldown;
the DecisionEngine implementation is not under src/. -/
def RegisterSymbol (p : DecisionParams) : Bool :=
  decide (0 < p.buyConfidenceThreshold) &&
  decide (0 < p.sellConfidenceThreshold) &&
  decide (0 ≤ p.cooldownMinutes)

/-- Direction rendered as the strings the EA compares against
(instructions.c lines 1664-1666). -/
def dirString : Direction → String
  | .Bullish => "BULLISH"
  | .Bearish => "BEARISH"
  | .Neutral => "NEUTRAL"

/-- Modelled from the spec: the package manager (not under src/) carries
the aggregated composite into the TradePackage fields the EA reads. -/
def packageOfComposite (c : CompositeSignal) : TradePackage :=
  { isValid := c.isValid
    overallConfidence := c.overallConfidence
    weightedScore := c.weightedScore
    directionAnalysis := { dominantDirection := dirString c.dominantDirection } }

/-! Concrete values used as witnesses and counterexamples.  The three
signals are the scenario of spec §8: {Bullish, 80, 90, weight 1},
{Bullish, 60, 70, weight 1}, {Bearish, 90, 95, weight 1}. -/

def sigTrend : ComponentSignal :=
  { name := "Trend", direction := .Bullish, score := 80, confidence := 90,
    weight := 1, active := true, timestamp := 0 }

def sigPOI : ComponentSignal :=
  { name := "POI", direction := .Bullish, score := 60, confidence := 70,
    weight := 1, active := true, timestamp := 0 }

def sigVol : ComponentSignal :=
  { name := "Volume", direction := .Bearish, score := 90, confidence := 95,
    weight := 1, active := true, timestamp := 0 }

def scenarioSignals : List ComponentSignal := [sigTrend, sigPOI, sigVol]

def scenarioComposite : CompositeSignal :=
  Aggregate defaultAggConfig "EURUSD" 0 scenarioSignals

def invalidPkg : TradePackage :=
  { isValid := false, overallConfidence := 40, weightedScore := 3,
    directionAnalysis := { dominantDirection := "" } }

def tickSt0 : TickState := { lastPackageUpdate := 0, lastDisplayUpdate := 0 }

def tickInpInvalid : TickInput :=
  { now := 100, bid := 1, packageUpdateInterval := 10, useDecisionEngine := true,
    pkgMgrReady := true, freshPackage := invalidPkg, symbol := "EURUSD" }

def tickInpEarly : TickInput :=
  { now := 105, bid := 1, packageUpdateInterval := 10, useDecisionEngine := true,
    pkgMgrReady := true, freshPackage := invalidPkg, symbol := "EURUSD" }

def stIdleW : SymbolDecisionState :=
  { machineState := .Idle, lastDecision := .NoDecision, lastDecisionTime := 0,
    cooldownUntil := 0, cooldownMinutes := 30, buyThreshold := 65,
    sellThreshold := 65, openPositionCount := 0, maxPositions := 1,
    positionDirection := .Neutral }

def compBuyW : CompositeSignal :=
  { symbol := "EURUSD", evaluatedAt := 100, weightedScore := 20,
    overallConfidence := 70, dominantDirection := .Bullish,
    agreement := { agree := 2, oppose := 0 }, isValid := true }

def compStrongW : CompositeSignal :=
  { symbol := "EURUSD", evaluatedAt := 200, weightedScore := 60,
    overallConfidence := 99, dominantDirection := .Bullish,
    agreement := { agree := 3, oppose := 0 }, isValid := true }

def paramsBadW : DecisionParams :=
  { riskPercent := 1, cooldownMinutes := -5, buyConfidenceThreshold := 65,
    sellConfidenceThreshold := 65 }

def outcomesRegFailW : InitOutcomes :=
  { loggerOk := true, indMgrOk := true, pkgMgrCreated := true,
    pkgMgrInitOk := true, poiEnabled := true, poiInitOk := true,
    engineInitOk := true, registerOk := false }

def outcomesIndFailW : InitOutcomes :=
  { loggerOk := true, indMgrOk := false, pkgMgrCreated := true,
    pkgMgrInitOk := true, poiEnabled := true, poiInitOk := true,
    engineInitOk := true, registerOk := true }

/-! Helper lemmas for the cooldown claim. -/

theorem evaluate_hold_during_cooldown (comp : CompositeSignal)
    (st : SymbolDecisionState) (now : Int) (hst : st.machineState = .Cooldown)
    (hnow : now < st.cooldownUntil) :
    Evaluate comp st now = (.Hold, st) := by
  unfold Evaluate
  by_cases hm : malformedComposite comp = true
  · simp [hm]
  · simp [hm, hst, hnow]

theorem evalIdle_buy_sell_enters_cooldown (comp : CompositeSignal)
    (st : SymbolDecisionState) (now : Int) (d : Decision)
    (st1 : SymbolDecisionState) (h : evalIdle comp st now = (d, st1))
    (hd : d = .Buy ∨ d = .Sell) :
    st1.machineState = .Cooldown
    ∧ st1.cooldownUntil = now + 60 * st.cooldownMinutes := by
  unfold evalIdle at h
  split_ifs at h <;> cases h <;> rcases hd with h | h <;> simp_all

theorem evaluate_buy_sell_enters_cooldown (comp : CompositeSignal)
    (st : SymbolDecisionState) (now : Int) (d : Decision)
    (st1 : SymbolDecisionState) (h : Evaluate comp st now = (d, st1))
    (hd : d = .Buy ∨ d = .Sell) :
    st1.machineState = .Cooldown
    ∧ st1.cooldownUntil = now + 60 * st.cooldownMinutes := by
  unfold Evaluate at h
  split_ifs at h with hm hidle hcool hnow hrev
  · cases h
    rcases hd with h | h <;> simp_all
  · exact evalIdle_buy_sell_enters_cooldown comp st now d st1 h hd
  · cases h
    rcases hd with h | h <;> simp_all
  · have := evalIdle_buy_sell_enters_cooldown comp
      { st with machineState := .Idle } now d st1 h hd
    simpa using this
  · cases h
    rcases hd with h | h <;> simp_all
  · cases h
    rcases hd with h | h <;> simp_all

theorem cooldown_holds_through_sequence (st1 : SymbolDecisionState)
    (hst : st1.machineState = .Cooldown) (evs : List (CompositeSignal × Int))
    (h : ∀ e ∈ evs, e.2 < st1.cooldownUntil) :
    ∀ d ∈ evalDecisions st1 evs, d = .Hold := by
  induction evs with
  | nil => simp [evalDecisions]
  | cons e rest ih =>
    have hhold : Evaluate e.1 st1 e.2 = (.Hold, st1) :=
      evaluate_hold_during_cooldown e.1 st1 e.2 hst (h e (List.mem_cons_self e rest))
    intro d hdm
    rw [evalDecisions] at hdm
    rw [hhold] at hdm
    rcases List.mem_cons.mp hdm with rfl | hdm
    · rfl
    · exact ih (fun e2 he2 => h e2 (List.mem_cons_of_mem e he2)) d hdm

/-- Claim C1: on every tick the EA forwards a package to
DecisionEngine.ProcessTradePackage only when the package's isValid flag is
true; an invalid fresh package is never forwarded, and any package the
tick generates is the fresh package itself, still available for
inspection. -/
theorem onTick_forwards_only_valid_packages (st : TickState) (inp : TickInput) :
    (∀ i, (OnTick st inp).forwarded = some i → inp.freshPackage.isValid = true)
    ∧ (inp.freshPackage.isValid = false → (OnTick st inp).forwarded = none)
    ∧ (inp.freshPackage.isValid = false →
        ∀ p, (OnTick st inp).generated = some p → p = inp.freshPackage) := by
  refine ⟨?_, ?_, ?_⟩
  · intro i hi
    simp only [OnTick] at hi
    split_ifs at hi with hg hf
    · exact hf.2
  · intro hinv
    simp only [OnTick]
    split_ifs with hg hf
    · exact absurd hf.2 (by simp [hinv])
    · rfl
    · rfl
  · intro hinv p hp
    simp only [OnTick] at hp
    split_ifs at hp with hg hf
    · exact (Option.some_inj.mp hp).symm
    · exact (Option.some_inj.mp hp).symm

/-- Witness for C1 at a concrete invalid package: the tick generates the
package but forwards nothing. -/
theorem onTick_forwards_only_valid_packages_witness :
    (OnTick tickSt0 tickInpInvalid).forwarded = none
    ∧ ∀ p, (OnTick tickSt0 tickInpInvalid).generated = some p →
        p = tickInpInvalid.freshPackage :=
  ⟨(onTick_forwards_only_valid_packages tickSt0 tickInpInvalid).2.1 rfl,
   (onTick_forwards_only_valid_packages tickSt0 tickInpInvalid).2.2 rfl⟩

/-- Claim C2: once Evaluate emits Buy or Sell, the state enters cooldown
with cooldownUntil = now + 60 * cooldownMinutes, and every later
evaluation whose time is below cooldownUntil returns Hold, regardless of
the strength of its composite. -/
theorem cooldown_blocks_further_decisions (comp : CompositeSignal)
    (st : SymbolDecisionState) (now : Int) (d : Decision)
    (st1 : SymbolDecisionState) (h : Evaluate comp st now = (d, st1))
    (hd : d = .Buy ∨ d = .Sell) :
    st1.cooldownUntil = now + 60 * st.cooldownMinutes
    ∧ ∀ evs : List (CompositeSignal × Int),
        (∀ e ∈ evs, e.2 < st1.cooldownUntil) →
        ∀ d2 ∈ evalDecisions st1 evs, d2 = .Hold := by
  obtain ⟨hms, hcu⟩ := evaluate_buy_sell_enters_cooldown comp st now d st1 h hd
  exact ⟨hcu, fun evs hevs => cooldown_holds_through_sequence st1 hms evs hevs⟩

/-- State reached after the concrete Buy in the C2 witness. -/
def st1W : SymbolDecisionState := (Evaluate compBuyW stIdleW 100).2

/-- Witness for C2: a concrete Buy at time 100 with a 30-minute cooldown,
followed by a very strong valid signal at time 200, still yields Hold. -/
theorem cooldown_blocks_further_decisions_witness :
    Evaluate compBuyW stIdleW 100 = (.Buy, st1W)
    ∧ ∀ d2 ∈ evalDecisions st1W [(compStrongW, 200)], d2 = .Hold := by
  have h : Evaluate compBuyW stIdleW 100 = (.Buy, st1W) := rfl
  have main := cooldown_blocks_further_decisions compBuyW stIdleW 100 .Buy st1W h
    (Or.inl rfl)
  refine ⟨h, main.2 _ ?_⟩
  intro e he
  rw [main.1]
  rw [List.mem_singleton] at he
  subst he
  decide

/-- Claim C3: aggregating the empty component list yields Neutral
direction, zero weighted score, zero confidence and an invalid composite;
in the EA, a package whose dominantDirection string is empty is classified
as NEUTRAL when the interface is built. -/
theorem empty_aggregation_is_neutral_invalid :
    (∀ cfg : AggConfig, ∀ s : String, ∀ t : Int,
        (Aggregate cfg s t []).dominantDirection = .Neutral
        ∧ (Aggregate cfg s t []).weightedScore = 0
        ∧ (Aggregate cfg s t []).overallConfidence = 0
        ∧ (Aggregate cfg s t []).isValid = false)
    ∧ (∀ sym : String, ∀ now : Int, ∀ bid : ℚ, ∀ pkg : TradePackage,
        pkg.directionAnalysis.dominantDirection = "" →
        (buildDEInterface sym now bid pkg).dominantDirection = "NEUTRAL") := by
  constructor
  · intro cfg s t
    exact ⟨rfl, rfl, rfl, rfl⟩
  · intro sym now bid pkg h
    simp [buildDEInterface, h]

/-- Witness for C3 at concrete inputs: the default configuration on the
empty list, and a concrete package with an empty direction string. -/
theorem empty_aggregation_is_neutral_invalid_witness :
    (Aggregate defaultAggConfig "EURUSD" 0 []).isValid = false
    ∧ (buildDEInterface "EURUSD" 100 1 invalidPkg).dominantDirection = "NEUTRAL" :=
  ⟨(empty_aggregation_is_neutral_invalid.1 defaultAggConfig "EURUSD" 0).2.2.2,
   empty_aggregation_is_neutral_invalid.2 "EURUSD" 100 1 invalidPkg rfl⟩

/-- Claim C8: aggregation is deterministic - identical input lists produce
identical CompositeSignal outputs. -/
theorem aggregate_deterministic (cfg : AggConfig) (s : String) (t : Int)
    (l1 l2 : List ComponentSignal) (h : l1 = l2) :
    Aggregate cfg s t l1 = Aggregate cfg s t l2 := by
  rw [h]

/-- Witness for C8 on the concrete three-signal scenario list. -/
theorem aggregate_deterministic_witness :
    Aggregate defaultAggConfig "EURUSD" 0 scenarioSignals
      = Aggregate defaultAggConfig "EURUSD" 0 scenarioSignals :=
  aggregate_deterministic defaultAggConfig "EURUSD" 0 scenarioSignals scenarioSignals rfl

/-- Claim C10: a tick that generates a package stamps lastPackageUpdate
with its time, and any tick arriving less than PackageUpdateInterval
seconds later neither generates nor forwards a package. -/
theorem onTick_package_generation_rate_limited (st : TickState)
    (inp1 inp2 : TickInput) (h1 : (OnTick st inp1).generated.isSome = true)
    (h2 : inp2.now - inp1.now < inp2.packageUpdateInterval) :
    (OnTick (OnTick st inp1).state inp2).generated = none
    ∧ (OnTick (OnTick st inp1).state inp2).forwarded = none := by
  have hlast : (OnTick st inp1).state.lastPackageUpdate = inp1.now := by
    simp only [OnTick] at h1 ⊢
    by_cases hg : inp1.pkgMgrReady = true
        ∧ inp1.packageUpdateInterval ≤ inp1.now - st.lastPackageUpdate
    · simp [hg]
    · simp [hg] at h1
  set s1 := (OnTick st inp1).state with hs1
  have hcond : ¬(inp2.pkgMgrReady = true
      ∧ inp2.packageUpdateInterval ≤ inp2.now - s1.lastPackageUpdate) := by
    intro hcontra
    rw [hlast] at hcontra
    omega
  constructor <;> simp [OnTick, hcond]

/-- Witness for C10: a generating tick at time 100 with a 10-second
interval, followed by a tick at time 105, which produces nothing. -/
theorem onTick_package_generation_rate_limited_witness :
    (OnTick tickSt0 tickInpInvalid).generated.isSome = true
    ∧ (OnTick (OnTick tickSt0 tickInpInvalid).state tickInpEarly).generated = none
    ∧ (OnTick (OnTick tickSt0 tickInpInvalid).state tickInpEarly).forwarded = none := by
  have h1 : (OnTick tickSt0 tickInpInvalid).generated.isSome = true := rfl
  have main := onTick_package_generation_rate_limited tickSt0 tickInpInvalid
    tickInpEarly h1 (by decide)
  exact ⟨h1, main.1, main.2⟩

/-- Claim C4 counterexample: for the spec's three-signal scenario the
composite's weightedScore is 50/3, but the interface handed to
ProcessTradePackage carries the overallConfidence 85 in its weightedScore
field, so the composite's weighted score never reaches the engine. -/
theorem interface_weightedScore_mismatch_counterexample :
    scenarioComposite.weightedScore = 50 / 3
    ∧ (buildDEInterface "EURUSD" 0 1
        (packageOfComposite scenarioComposite)).weightedScore = 85
    ∧ (buildDEInterface "EURUSD" 0 1
        (packageOfComposite scenarioComposite)).weightedScore
      ≠ scenarioComposite.weightedScore := by
  refine ⟨?_, ?_, ?_⟩ <;>
    norm_num [scenarioComposite, Aggregate, scenarioSignals, sigTrend, sigPOI,
      sigVol, weightedConfidence, normalizedWeight, weightSum, rawWeightedScore,
      clampQ, dominantOf, dirSign, min_def, max_def, defaultAggConfig,
      buildDEInterface, packageOfComposite, dirString]

/-- Claim C4 amended: the composite's weightedScore is the clamped signed
weighted sum, but the interface the EA hands to the decision engine
carries the package's overallConfidence in its weightedScore field. -/
theorem weightedScore_formula_and_interface_confidence (cfg : AggConfig)
    (s : String) (t : Int) (l : List ComponentSignal) (hne : l ≠ []) :
    (Aggregate cfg s t l).weightedScore = clampQ (-100) 100 (rawWeightedScore l)
    ∧ ∀ sym : String, ∀ now : Int, ∀ bid : ℚ, ∀ pkg : TradePackage,
        (buildDEInterface sym now bid pkg).weightedScore
          = pkg.overallConfidence := by
  cases l with
  | nil => exact absurd rfl hne
  | cons a tl => exact ⟨rfl, fun sym now bid pkg => rfl⟩

/-- Witness for the amended C4 on the concrete scenario list and a
concrete package. -/
theorem weightedScore_formula_witness :
    (Aggregate defaultAggConfig "EURUSD" 0 scenarioSignals).weightedScore
      = clampQ (-100) 100 (rawWeightedScore scenarioSignals)
    ∧ (buildDEInterface "EURUSD" 0 1 invalidPkg).weightedScore
      = invalidPkg.overallConfidence :=
  ⟨(weightedScore_formula_and_interface_confidence defaultAggConfig "EURUSD" 0
      scenarioSignals (by decide)).1,
   (weightedScore_formula_and_interface_confidence defaultAggConfig "EURUSD" 0
      scenarioSignals (by decide)).2 "EURUSD" 0 1 invalidPkg⟩

/-- Claim C5 counterexample: in the scenario composite two signals agree
with the dominant direction and one opposes it, yet the interface the
decision engine receives reports the constant 4 in its bullish count
field, not the agreement count 2. -/
theorem interface_agreement_mismatch_counterexample :
    scenarioComposite.agreement.agree = 2
    ∧ scenarioComposite.agreement.oppose = 1
    ∧ (buildDEInterface "EURUSD" 0 1
        (packageOfComposite scenarioComposite)).mtfBullishCount = 4
    ∧ (buildDEInterface "EURUSD" 0 1
        (packageOfComposite scenarioComposite)).mtfBullishCount
      ≠ (scenarioComposite.agreement.agree : Int) := by
  refine ⟨?_, ?_, ?_, ?_⟩ <;>
    norm_num [scenarioComposite, Aggregate, scenarioSignals, sigTrend, sigPOI,
      sigVol, weightedConfidence, normalizedWeight, weightSum, rawWeightedScore,
      clampQ, dominantOf, dirSign, min_def, max_def, oppositeDir,
      defaultAggConfig, buildDEInterface, packageOfComposite, dirString]
  all_goals decide

/-- Claim C5 amended: the composite's agreement counts are exactly the
numbers of signals matching and opposing the dominant direction (Neutral
counts toward neither), but the bullish and bearish count fields the
decision engine receives are the constants 4 or 2 chosen from the
direction string alone. -/
theorem agreement_counts_and_interface_defaults (cfg : AggConfig) (s : String)
    (t : Int) (l : List ComponentSignal) (hne : l ≠ []) :
    (Aggregate cfg s t l).agreement.agree
      = (l.filter fun c =>
          c.direction = (Aggregate cfg s t l).dominantDirection
          ∧ c.direction ≠ .Neutral).length
    ∧ (Aggregate cfg s t l).agreement.oppose
      = (l.filter fun c =>
          c.direction = oppositeDir (Aggregate cfg s t l).dominantDirection
          ∧ c.direction ≠ .Neutral).length
    ∧ ∀ sym : String, ∀ now : Int, ∀ bid : ℚ, ∀ pkg : TradePackage,
        ((buildDEInterface sym now bid pkg).mtfBullishCount
          = if (buildDEInterface sym now bid pkg).dominantDirection = "BULLISH"
            then 4 else 2)
        ∧ ((buildDEInterface sym now bid pkg).mtfBearishCount
          = if (buildDEInterface sym now bid pkg).dominantDirection = "BEARISH"
            then 4 else 2) := by
  cases l with
  | nil => exact absurd rfl hne
  | cons a tl => exact ⟨rfl, rfl, fun sym now bid pkg => ⟨rfl, rfl⟩⟩

/-- Witness for the amended C5 on the concrete scenario list and a
concrete package. -/
theorem agreement_counts_amended_witness :
    (Aggregate defaultAggConfig "EURUSD" 0 scenarioSignals).agreement.agree
      = (scenarioSignals.filter fun c =>
          c.direction
            = (Aggregate defaultAggConfig "EURUSD" 0 scenarioSignals).dominantDirection
          ∧ c.direction ≠ .Neutral).length
    ∧ (buildDEInterface "EURUSD" 0 1 invalidPkg).mtfBullishCount
      = if (buildDEInterface "EURUSD" 0 1 invalidPkg).dominantDirection = "BULLISH"
        then 4 else 2 :=
  ⟨(agreement_counts_and_interface_defaults defaultAggConfig "EURUSD" 0
      scenarioSignals (by decide)).1,
   ((agreement_counts_and_interface_defaults defaultAggConfig "EURUSD" 0
      scenarioSignals (by decide)).2.2 "EURUSD" 0 1 invalidPkg).1⟩

/-- Claim C6: under the data-model invariants (confidences in [0,100],
non-negative weights) the composite's overallConfidence equals the
weighted mean of the component confidences and always lies in [0,100]. -/
theorem overallConfidence_weighted_mean_in_bounds (cfg : AggConfig)
    (s : String) (t : Int) (l : List ComponentSignal)
    (hconf : ∀ c ∈ l, 0 ≤ c.confidence ∧ c.confidence ≤ 100)
    (hw : ∀ c ∈ l, 0 ≤ c.weight) :
    0 ≤ (Aggregate cfg s t l).overallConfidence
    ∧ (Aggregate cfg s t l).overallConfidence ≤ 100
    ∧ (l ≠ [] →
        (Aggregate cfg s t l).overallConfidence = weightedConfidence l) := by
  cases l with
  | nil =>
    refine ⟨le_refl 0, ?_, fun h => absurd rfl h⟩
    show (0 : ℚ) ≤ 100
    norm_num
  | cons a tl =>
    have hov : (Aggregate cfg s t (a :: tl)).overallConfidence
        = weightedConfidence (a :: tl) := rfl
    have h1 := weightedConfidence_nonneg (a :: tl)
      (fun c hc => (hconf c hc).1) hw
    have h2 := weightedConfidence_le_100 (a :: tl) (by simp)
      (fun c hc => (hconf c hc).2) hw
    refine ⟨?_, ?_, fun _ => hov⟩
    · rw [hov]
      exact h1
    · rw [hov]
      exact h2

/-- Witness for C6 on the concrete scenario list. -/
theorem overallConfidence_bounds_witness :
    0 ≤ (Aggregate defaultAggConfig "EURUSD" 0 scenarioSignals).overallConfidence
    ∧ (Aggregate defaultAggConfig "EURUSD" 0 scenarioSignals).overallConfidence
      ≤ 100 :=
  ⟨(overallConfidence_weighted_mean_in_bounds defaultAggConfig "EURUSD" 0
      scenarioSignals (by decide) (by decide)).1,
   (overallConfidence_weighted_mean_in_bounds defaultAggConfig "EURUSD" 0
      scenarioSignals (by decide) (by decide)).2.1⟩

/-- Claim C7: a configuration error (non-positive threshold or negative
cooldown) is rejected at symbol-registration time, and a failed
RegisterSymbol call makes OnInit return INIT_FAILED instead of continuing
into the evaluation loop. -/
theorem config_error_rejected_at_registration :
    (∀ p : DecisionParams,
        (p.buyConfidenceThreshold ≤ 0 ∨ p.sellConfidenceThreshold ≤ 0
          ∨ p.cooldownMinutes < 0) →
        RegisterSymbol p = false)
    ∧ (∀ o : InitOutcomes, o.registerOk = false → (OnInit o).1 = .failed) := by
  constructor
  · intro p hp
    unfold RegisterSymbol
    rcases hp with h | h | h
    · rw [decide_eq_false (not_lt.mpr h)]
      simp
    · rw [decide_eq_false (not_lt.mpr h)]
      simp
    · rw [decide_eq_false (not_le.mpr h)]
      simp
  · intro o h
    unfold OnInit
    split_ifs <;> simp_all

/-- Witness for C7: concrete parameters with a negative cooldown are
rejected, and a concrete OnInit run with a failing registration returns
INIT_FAILED. -/
theorem config_error_rejected_witness :
    RegisterSymbol paramsBadW = false ∧ (OnInit outcomesRegFailW).1 = .failed :=
  ⟨config_error_rejected_at_registration.1 paramsBadW
     (Or.inr (Or.inr (by decide))),
   config_error_rejected_at_registration.2 outcomesRegFailW rfl⟩

/-- Claim C9 counterexample: when RegisterSymbol fails, OnInit returns
INIT_FAILED with both heap managers deleted and the engine deinitialized,
but the Logger - initialized earlier in the same OnInit run - is never
shut down before the return. -/
theorem onInit_failure_logger_not_released_counterexample :
    (OnInit outcomesRegFailW).1 = .failed
    ∧ (OnInit outcomesRegFailW).2.loggerInitialized = true
    ∧ (OnInit outcomesRegFailW).2.indMgrAllocated = false
    ∧ (OnInit outcomesRegFailW).2.pkgMgrAllocated = false
    ∧ (OnInit outcomesRegFailW).2.engineInitialized = false :=
  ⟨rfl, rfl, rfl, rfl, rfl⟩

/-- Claim C9 amended: every failure path of OnInit deletes the heap
manager objects allocated so far and leaves the DecisionEngine
uninitialized, but the Logger is not shut down on failure paths
(Logger::Shutdown runs only in OnDeinit). -/
theorem onInit_failure_releases_manager_objects (o : InitOutcomes)
    (h : (OnInit o).1 = .failed) :
    (OnInit o).2.indMgrAllocated = false
    ∧ (OnInit o).2.pkgMgrAllocated = false
    ∧ (OnInit o).2.engineInitialized = false := by
  unfold OnInit at h ⊢
  split_ifs at h ⊢ <;> simp_all

/-- Witness for the amended C9 on a concrete failing IndicatorManager
initialization. -/
theorem onInit_failure_releases_witness :
    (OnInit outcomesIndFailW).2.indMgrAllocated = false
    ∧ (OnInit outcomesIndFailW).2.pkgMgrAllocated = false
    ∧ (OnInit outcomesIndFailW).2.engineInitialized = false :=
  onInit_failure_releases_manager_objects outcomesIndFailW rfl

end MK

